import Mathlib

set_option maxHeartbeats 1000000
set_option maxRecDepth 8000

/-- Tokens produced by the ESIL tokenizer; mirrors `enum Token` of src/lexer.rs.
Machine integers are modelled as `Nat` (the `u8` width and bit-index arguments,
the `usize` parser-directive counts, the `u64` constant value); identifier text
is kept as the list of characters of the lexeme. -/
inductive Token : Type
  | EInterrupt
  | ECmp
  | ELt
  | EGt
  | EEq
  | EIf
  | ELsl
  | ELsr
  | ERor
  | ERol
  | EAnd
  | EOr
  | ENop
  | ENeg
  | EMul
  | EXor
  | EAdd
  | ESub
  | EDiv
  | EMod
  | EPoke (w : Nat)
  | EPeek (w : Nat)
  | EDump
  | EPop
  | ETodo
  | EGoto
  | EBreak
  | EClear
  | EDup
  | ETrap
  | IZero (bit : Nat)
  | ICarry (bit : Nat)
  | IParity (bit : Nat)
  | IOverflow (bit : Nat)
  | ISign (bit : Nat)
  | IBorrow (bit : Nat)
  | ISize (bit : Nat)
  | IAddress (bit : Nat)
  | EConstant (v : Nat)
  | EIdentifier (s : List Char)
  | EInvalid
  | PCopy (n : Nat)
  | PPop (n : Nat)
  | PSync
  deriving DecidableEq, Repr

/-- The reserved internal-variable marker, `ESIL_INTERNAL_PREFIX` in the source. -/
def esilInternalMarker : Char := '$'

/-- Number of bytes of the UTF-8 encoding of a character, as Rust's
`char::len_utf8`; used to model Rust's byte-based `str::len` and byte slicing. -/
def charUtf8Size (c : Char) : Nat :=
  if c.toNat ≤ 127 then 1
  else if c.toNat ≤ 2047 then 2
  else if c.toNat ≤ 65535 then 3
  else 4

/-- Byte length of a string, as Rust's `str::len` (UTF-8 byte count). -/
def utf8Len (l : List Char) : Nat := (l.map charUtf8Size).sum

/-- Model of the Rust byte-slice `t[n..]` on a UTF-8 string: `some` of the
remaining characters when byte offset `n` falls on a character boundary,
`none` (a Rust panic) when it falls inside a multi-byte character or past
the end. -/
def dropBytes (n : Nat) (l : List Char) : Option (List Char) :=
  match l with
  | [] => if n = 0 then some [] else none
  | c :: cs =>
    if n = 0 then some (c :: cs)
    else if charUtf8Size c ≤ n then dropBytes (n - charUtf8Size c) cs else none

/-- Value of a single digit character, as Rust's `char::to_digit` for
radixes up to 16: `0`-`9`, `a`-`f` and `A`-`F`. -/
def digitValue (c : Char) : Option Nat :=
  if '0' ≤ c ∧ c ≤ '9' then some (c.toNat - '0'.toNat)
  else if 'a' ≤ c ∧ c ≤ 'f' then some (c.toNat - 'a'.toNat + 10)
  else if 'A' ≤ c ∧ c ≤ 'F' then some (c.toNat - 'A'.toNat + 10)
  else none

/-- Accumulating digit loop of Rust's `from_str_radix`: every character must
be a digit valid in radix `r`. -/
def parseDigitsAux (r acc : Nat) : List Char → Option Nat
  | [] => some acc
  | c :: cs =>
    match digitValue c with
    | some d => if d < r then parseDigitsAux r (r * acc + d) cs else none
    | none => none

/-- Parse a nonempty run of digits in radix `r` (no sign handling here). -/
def parseDigits (r : Nat) (l : List Char) : Option Nat :=
  match l with
  | [] => none
  | _ => parseDigitsAux r 0 l

/-- Largest value of a Rust `u64`. -/
def U64MAX : Nat := 18446744073709551615

/-- Rust's `from_str_radix` for an unsigned integer type with maximum value
`M`: an optional leading `+` or `-` sign, then a nonempty digit run; the
checked arithmetic fails exactly when the value exceeds `M` (for a `-` sign
it fails unless the value is zero). Used for `u8::parse` (`M = 255`, radix
10) and the `u64` hex/decimal parses of the classifier. -/
def rustParseUnsigned (M r : Nat) (l : List Char) : Option Nat :=
  if l.head? = some '+' then
    (parseDigits r l.tail).bind (fun v => if v ≤ M then some v else none)
  else if l.head? = some '-' then
    (parseDigits r l.tail).bind (fun v => if v = 0 then some 0 else none)
  else
    (parseDigits r l).bind (fun v => if v ≤ M then some v else none)

/-- Rust's `trim_left_matches("0x")`: repeatedly strip a leading `0x`. -/
def trim0x : List Char → List Char
  | c1 :: c2 :: rest => if c1 = '0' ∧ c2 = 'x' then trim0x rest else c1 :: c2 :: rest
  | l => l

/-- The internal-variable kind selected by the second character of the
lexeme, mirroring the `match t.chars().nth(1)` arms of the source. -/
def kindToken (bit : Nat) (k : Char) : Token :=
  if k = '$' then Token.IAddress bit
  else if k = 'z' then Token.IZero bit
  else if k = 'b' then Token.IBorrow bit
  else if k = 'c' then Token.ICarry bit
  else if k = 'p' then Token.IParity bit
  else if k = 'r' then Token.ISize bit
  else if k = 'o' then Token.IOverflow bit
  else if k = 's' then Token.ISign bit
  else Token.EInvalid

/-- The internal-variable branch of the tokenizer (source lines 262-278):
the bit index is `t[2..].parse::<u8>().unwrap_or(0)` when the byte length is
at least 3 and 0 otherwise; the byte slice `t[2..]` panics (`none`) when
byte offset 2 is not a character boundary. The kind character is
`t.chars().nth(1).unwrap_or('\0')`. -/
def internalVar (t : List Char) : Option (List Token) :=
  if utf8Len t < 3 then some [kindToken 0 (t.tail.head?.getD '\x00')]
  else
    match dropBytes 2 t with
    | none => none
    | some suffix =>
      some [kindToken ((rustParseUnsigned 255 10 suffix).getD 0) (t.tail.head?.getD '\x00')]

/-- The numeric/identifier fallback of the tokenizer (source lines 279-287):
base-16 parse of the `0x`-trimmed text first, then base-10 parse of the raw
text, else an identifier carrying the lexeme. -/
def classifier (t : List Char) : Option (List Token) :=
  match rustParseUnsigned U64MAX 16 (trim0x t) with
  | some v => some [Token.EConstant v]
  | none =>
    match rustParseUnsigned U64MAX 10 t with
    | some v => some [Token.EConstant v]
    | none => some [Token.EIdentifier t]

/-- The exact-match opcode table: the string-literal arms of the big `match`
in `Tokenizer::tokenize` (source lines 74-259), in source order. -/
def opcodeTable : List (List Char × List Token) :=
  [ ("$".data, [Token.EInterrupt]),
    ("==".data, [Token.ECmp]),
    ("<".data, [Token.ELt]),
    (">".data, [Token.EGt]),
    ("<=".data, [Token.PCopy 2, Token.ELt, Token.PPop 2, Token.ECmp, Token.EOr]),
    (">=".data, [Token.PCopy 2, Token.EGt, Token.PPop 2, Token.ECmp, Token.EOr]),
    ("?\x7b".data, [Token.EIf]),
    ("<<".data, [Token.ELsl]),
    ("<<=".data, [Token.PCopy 2, Token.ELsl, Token.PPop 1, Token.EPop, Token.EEq]),
    (">>".data, [Token.ELsr]),
    (">>=".data, [Token.PCopy 2, Token.ELsr, Token.PPop 1, Token.EPop, Token.EEq]),
    (">>>".data, [Token.ERor]),
    ("<<<".data, [Token.ERol]),
    ("&".data, [Token.EAnd]),
    ("&=".data, [Token.PCopy 2, Token.EAnd, Token.PPop 1, Token.EPop, Token.EEq]),
    ("\x7d".data, [Token.ENop]),
    ("|".data, [Token.EOr]),
    ("|=".data, [Token.PCopy 2, Token.EOr, Token.PPop 1, Token.EPop, Token.EEq]),
    ("!".data, [Token.ENeg]),
    ("!=".data, [Token.PCopy 1, Token.ENeg, Token.EEq]),
    ("=".data, [Token.EEq]),
    ("*".data, [Token.EMul]),
    ("*=".data, [Token.PCopy 2, Token.EMul, Token.PPop 1, Token.EPop, Token.EEq]),
    ("^".data, [Token.EXor]),
    ("^=".data, [Token.PCopy 2, Token.EXor, Token.PPop 1, Token.EPop, Token.EEq]),
    ("+".data, [Token.EAdd]),
    ("+=".data, [Token.PCopy 2, Token.EAdd, Token.PPop 1, Token.EPop, Token.EEq]),
    ("++".data, [Token.PPop 1, Token.EConstant 1, Token.EAdd]),
    ("++=".data, [Token.PCopy 1, Token.EConstant 1, Token.EAdd, Token.PPop 1, Token.EEq]),
    ("-".data, [Token.ESub]),
    ("-=".data, [Token.PCopy 2, Token.ESub, Token.PPop 1, Token.EPop, Token.EEq]),
    ("--".data, [Token.PPop 1, Token.EConstant 1, Token.ESub]),
    ("--=".data, [Token.PCopy 1, Token.EConstant 1, Token.ESub, Token.PPop 1, Token.EEq]),
    ("/".data, [Token.EDiv]),
    ("/=".data, [Token.PCopy 2, Token.EDiv, Token.PPop 1, Token.EPop, Token.EEq]),
    ("%".data, [Token.EMod]),
    ("%=".data, [Token.PCopy 2, Token.EMod, Token.PPop 1, Token.EPop, Token.EEq]),
    ("=[]".data, [Token.EPoke 64]),
    ("=[1]".data, [Token.EPoke 8]),
    ("=[2]".data, [Token.EPoke 16]),
    ("=[4]".data, [Token.EPoke 32]),
    ("=[8]".data, [Token.EPoke 64]),
    ("|=[]".data, [Token.PCopy 1, Token.EPeek 64, Token.EOr, Token.PPop 1, Token.EPop,
      Token.EPoke 64]),
    ("|=[1]".data, [Token.PCopy 1, Token.EPeek 8, Token.EOr, Token.PPop 1, Token.EPop,
      Token.EPoke 8]),
    ("|=[2]".data, [Token.PCopy 1, Token.EPeek 16, Token.EOr, Token.PPop 1, Token.EPop,
      Token.EPoke 16]),
    ("|=[4]".data, [Token.PCopy 1, Token.EPeek 32, Token.EOr, Token.PPop 1, Token.EPop,
      Token.EPoke 32]),
    ("|=[8]".data, [Token.PCopy 1, Token.EPeek 64, Token.EOr, Token.PPop 1, Token.EPop,
      Token.EPoke 64]),
    ("^=[]".data, [Token.PCopy 1, Token.EPeek 64, Token.EXor, Token.PPop 1, Token.EPop,
      Token.EPoke 64]),
    ("^=[1]".data, [Token.PCopy 1, Token.EPeek 8, Token.EXor, Token.PPop 1, Token.EPop,
      Token.EPoke 8]),
    ("^=[2]".data, [Token.PCopy 1, Token.EPeek 16, Token.EXor, Token.PPop 1, Token.EPop,
      Token.EPoke 16]),
    ("^=[4]".data, [Token.PCopy 1, Token.EPeek 32, Token.EXor, Token.PPop 1, Token.EPop,
      Token.EPoke 32]),
    ("^=[8]".data, [Token.PCopy 1, Token.EPeek 64, Token.EXor, Token.PPop 1, Token.EPop,
      Token.EPoke 64]),
    ("&=[]".data, [Token.PCopy 1, Token.EPeek 64, Token.EAnd, Token.PPop 1, Token.EPop,
      Token.EPoke 64]),
    ("&=[1]".data, [Token.PCopy 1, Token.EPeek 8, Token.EAnd, Token.PPop 1, Token.EPop,
      Token.EPoke 8]),
    ("&=[2]".data, [Token.PCopy 1, Token.EPeek 16, Token.EAnd, Token.PPop 1, Token.EPop,
      Token.EPoke 16]),
    ("&=[4]".data, [Token.PCopy 1, Token.EPeek 32, Token.EAnd, Token.PPop 1, Token.EPop,
      Token.EPoke 32]),
    ("&=[8]".data, [Token.PCopy 1, Token.EPeek 64, Token.EAnd, Token.PPop 1, Token.EPop,
      Token.EPoke 64]),
    ("+=[]".data, [Token.PCopy 1, Token.EPeek 64, Token.EAdd, Token.PPop 1, Token.EPop,
      Token.EPoke 64]),
    ("+=[1]".data, [Token.PCopy 1, Token.EPeek 8, Token.EAdd, Token.PPop 1, Token.EPop,
      Token.EPoke 8]),
    ("+=[2]".data, [Token.PCopy 1, Token.EPeek 16, Token.EAdd, Token.PPop 1, Token.EPop,
      Token.EPoke 16]),
    ("+=[4]".data, [Token.PCopy 1, Token.EPeek 32, Token.EAdd, Token.PPop 1, Token.EPop,
      Token.EPoke 32]),
    ("+=[8]".data, [Token.PCopy 1, Token.EPeek 64, Token.EAdd, Token.PPop 1, Token.EPop,
      Token.EPoke 64]),
    ("-=[]".data, [Token.PCopy 1, Token.EPeek 64, Token.ESub, Token.PPop 1, Token.EPop,
      Token.EPoke 64]),
    ("-=[1]".data, [Token.PCopy 1, Token.EPeek 8, Token.ESub, Token.PPop 1, Token.EPop,
      Token.EPoke 8]),
    ("-=[2]".data, [Token.PCopy 1, Token.EPeek 16, Token.ESub, Token.PPop 1, Token.EPop,
      Token.EPoke 16]),
    ("-=[4]".data, [Token.PCopy 1, Token.EPeek 32, Token.ESub, Token.PPop 1, Token.EPop,
      Token.EPoke 32]),
    ("-=[8]".data, [Token.PCopy 1, Token.EPeek 64, Token.ESub, Token.PPop 1, Token.EPop,
      Token.EPoke 64]),
    ("%=[]".data, [Token.PCopy 1, Token.EPeek 64, Token.EMod, Token.PPop 1, Token.EPop,
      Token.EPoke 64]),
    ("%=[1]".data, [Token.PCopy 1, Token.EPeek 8, Token.EMod, Token.PPop 1, Token.EPop,
      Token.EPoke 8]),
    ("%=[2]".data, [Token.PCopy 1, Token.EPeek 16, Token.EMod, Token.PPop 1, Token.EPop,
      Token.EPoke 16]),
    ("%=[4]".data, [Token.PCopy 1, Token.EPeek 32, Token.EMod, Token.PPop 1, Token.EPop,
      Token.EPoke 32]),
    ("%=[8]".data, [Token.PCopy 1, Token.EPeek 64, Token.EMod, Token.PPop 1, Token.EPop,
      Token.EPoke 64]),
    ("/=[]".data, [Token.PCopy 1, Token.EPeek 64, Token.EDiv, Token.PPop 1, Token.EPop,
      Token.EPoke 64]),
    ("/=[1]".data, [Token.PCopy 1, Token.EPeek 8, Token.EDiv, Token.PPop 1, Token.EPop,
      Token.EPoke 8]),
    ("/=[2]".data, [Token.PCopy 1, Token.EPeek 16, Token.EDiv, Token.PPop 1, Token.EPop,
      Token.EPoke 16]),
    ("/=[4]".data, [Token.PCopy 1, Token.EPeek 32, Token.EDiv, Token.PPop 1, Token.EPop,
      Token.EPoke 32]),
    ("/=[8]".data, [Token.PCopy 1, Token.EPeek 64, Token.EDiv, Token.PPop 1, Token.EPop,
      Token.EPoke 64]),
    ("*=[]".data, [Token.PCopy 1, Token.EPeek 64, Token.EMul, Token.PPop 1, Token.EPop,
      Token.EPoke 64]),
    ("*=[1]".data, [Token.PCopy 1, Token.EPeek 8, Token.EMul, Token.PPop 1, Token.EPop,
      Token.EPoke 8]),
    ("*=[2]".data, [Token.PCopy 1, Token.EPeek 16, Token.EMul, Token.PPop 1, Token.EPop,
      Token.EPoke 16]),
    ("*=[4]".data, [Token.PCopy 1, Token.EPeek 32, Token.EMul, Token.PPop 1, Token.EPop,
      Token.EPoke 32]),
    ("*=[8]".data, [Token.PCopy 1, Token.EPeek 64, Token.EMul, Token.PPop 1, Token.EPop,
      Token.EPoke 64]),
    ("++=[]".data, [Token.PCopy 1, Token.EPeek 64, Token.EConstant 1, Token.EAdd,
      Token.PPop 1, Token.EPoke 64]),
    ("++=[1]".data, [Token.PCopy 1, Token.EPeek 8, Token.EConstant 1, Token.EAdd,
      Token.PPop 1, Token.EPoke 8]),
    ("++=[2]".data, [Token.PCopy 1, Token.EPeek 16, Token.EConstant 1, Token.EAdd,
      Token.PPop 1, Token.EPoke 16]),
    ("++=[4]".data, [Token.PCopy 1, Token.EPeek 32, Token.EConstant 1, Token.EAdd,
      Token.PPop 1, Token.EPoke 32]),
    ("++=[8]".data, [Token.PCopy 1, Token.EPeek 64, Token.EConstant 1, Token.EAdd,
      Token.PPop 1, Token.EPoke 64]),
    ("--=[]".data, [Token.EConstant 1, Token.PPop 1, Token.PCopy 1, Token.EPeek 64,
      Token.ESub, Token.PPop 1, Token.EPoke 64]),
    ("--=[1]".data, [Token.EConstant 1, Token.PPop 1, Token.PCopy 1, Token.EPeek 8,
      Token.ESub, Token.PPop 1, Token.EPoke 8]),
    ("--=[2]".data, [Token.EConstant 1, Token.PPop 1, Token.PCopy 1, Token.EPeek 16,
      Token.ESub, Token.PPop 1, Token.EPoke 16]),
    ("--=[4]".data, [Token.EConstant 1, Token.PPop 1, Token.PCopy 1, Token.EPeek 32,
      Token.ESub, Token.PPop 1, Token.EPoke 32]),
    ("--=[8]".data, [Token.EConstant 1, Token.PPop 1, Token.PCopy 1, Token.EPeek 64,
      Token.ESub, Token.PPop 1, Token.EPoke 64]),
    ("[]".data, [Token.EPeek 64]),
    ("[*]".data, [Token.EPeek 64]),
    ("=[*]".data, [Token.EPoke 64]),
    ("[1]".data, [Token.EPeek 8]),
    ("[2]".data, [Token.EPeek 16]),
    ("[4]".data, [Token.EPeek 32]),
    ("[8]".data, [Token.EPeek 64]),
    ("STACK".data, [Token.EDump]),
    ("POP".data, [Token.EPop]),
    ("TODO".data, [Token.ETodo]),
    ("GOTO".data, [Token.EGoto]),
    ("BREAK".data, [Token.EBreak]),
    ("CLEAR".data, [Token.EClear]),
    ("DUP".data, [Token.EDup]),
    ("TRAP".data, [Token.ETrap]) ]

/-- Exact-match lookup in the opcode table, first match wins (the arms of a
Rust `match` on a string are tried in order and are disjoint). -/
def tableFind (t : List Char) : List (List Char × List Token) → Option (List Token)
  | [] => none
  | (k, v) :: rest => if t = k then some v else tableFind t rest

/-- Classification of one raw lexeme: the opcode table first, then the
internal-variable branch when the first character is the marker, then the
numeric/identifier classifier. `none` models a Rust panic. -/
def tokenizeLexeme (t : List Char) : Option (List Token) :=
  match tableFind t opcodeTable with
  | some ts => some ts
  | none =>
    if t.head? = some esilInternalMarker then internalVar t else classifier t

/-- Tokens of a sequence of lexemes, appended in order; a panic on any
lexeme aborts the whole call. -/
def tokenizeLexemes : List (List Char) → Option (List Token)
  | [] => some []
  | l :: ls =>
    match tokenizeLexeme l with
    | none => none
    | some ts => (tokenizeLexemes ls).map (fun rest => ts ++ rest)

/-- Rust's `str::split(",")`: empty pieces are kept, the empty string yields
one empty piece. -/
def splitComma : List Char → List (List Char)
  | [] => [[]]
  | c :: cs =>
    if c = ',' then [] :: splitComma cs
    else
      match splitComma cs with
      | [] => [[c]]
      | l :: ls => (c :: l) :: ls

/-- `Tokenizer::tokenize`: split the input on commas and classify each
lexeme, extending the output vector in order. `none` models a panic of the
Rust function (it is not total: see the byte slice in `internalVar`). -/
def tokenize (s : List Char) : Option (List Token) :=
  tokenizeLexemes (splitComma s)

/-- Lexemes whose characters are all among `0`-`9` and `a`-`f`: the class the
spec's numeric-radix sentence quantifies over. -/
def isHexDigitLower (c : Char) : Bool :=
  ('0' ≤ c && c ≤ '9') || ('a' ≤ c && c ≤ 'f')

lemma splitComma_ne_nil (l : List Char) : splitComma l ≠ [] := by
  induction l with
  | nil => simp [splitComma]
  | cons c cs ih =>
    simp only [splitComma]
    split
    · simp
    · cases h : splitComma cs with
      | nil => simp
      | cons a as => simp

lemma splitComma_append (a b : List Char) :
    splitComma (a ++ ',' :: b) = splitComma a ++ splitComma b := by
  induction a with
  | nil => simp [splitComma]
  | cons c cs ih =>
    by_cases hc : c = ','
    · subst hc
      simp [splitComma, ih]
    · cases h : splitComma cs with
      | nil => exact absurd h (splitComma_ne_nil cs)
      | cons x xs =>
        simp only [List.cons_append, splitComma, if_neg hc, List.append_eq]
        rw [ih, h]
        simp

lemma splitComma_single (l : List Char) (h : ∀ c ∈ l, c ≠ ',') : splitComma l = [l] := by
  induction l with
  | nil => rfl
  | cons c cs ih =>
    have hc : c ≠ ',' := h c (by simp)
    have ih' := ih (fun x hx => h x (by simp [hx]))
    simp [splitComma, if_neg hc, ih']

lemma tokenizeLexemes_append (xs ys : List (List Char)) :
    tokenizeLexemes (xs ++ ys) =
      (tokenizeLexemes xs).bind (fun a => (tokenizeLexemes ys).map (fun b => a ++ b)) := by
  induction xs with
  | nil =>
    simp only [List.nil_append, tokenizeLexemes]
    cases tokenizeLexemes ys <;> simp
  | cons x xs ih =>
    simp only [List.cons_append, tokenizeLexemes, List.append_eq]
    cases hx : tokenizeLexeme x with
    | none => simp
    | some ts =>
      rw [ih]
      cases tokenizeLexemes xs <;> cases tokenizeLexemes ys <;> simp

lemma tokenize_single (t : List Char) (h : ∀ c ∈ t, c ≠ ',') :
    tokenize t = tokenizeLexeme t := by
  unfold tokenize
  rw [splitComma_single t h]
  cases ht : tokenizeLexeme t <;> simp [tokenizeLexemes, ht]

lemma tableFind_eq_none (t : List Char) (tbl : List (List Char × List Token))
    (h : ∀ p ∈ tbl, t ≠ p.1) : tableFind t tbl = none := by
  induction tbl with
  | nil => rfl
  | cons p ps ih =>
    obtain ⟨k, v⟩ := p
    simp only [tableFind]
    rw [if_neg (h (k, v) (by simp))]
    exact ih (fun q hq => h q (by simp [hq]))

lemma one_le_charUtf8Size (c : Char) : 1 ≤ charUtf8Size c := by
  unfold charUtf8Size
  repeat' split
  all_goals omega

lemma charUtf8Size_ascii (c : Char) (h : c.toNat ≤ 127) : charUtf8Size c = 1 := by
  unfold charUtf8Size
  rw [if_pos h]

lemma utf8Len_cons (c : Char) (l : List Char) :
    utf8Len (c :: l) = charUtf8Size c + utf8Len l := by
  simp [utf8Len]

lemma utf8Len_pos (l : List Char) (h : l ≠ []) : 1 ≤ utf8Len l := by
  cases l with
  | nil => exact absurd rfl h
  | cons c cs =>
    rw [utf8Len_cons]
    have := one_le_charUtf8Size c
    omega

lemma hexLower_ne (c : Char) (h : isHexDigitLower c = true) :
    c ≠ ',' ∧ c ≠ '$' ∧ c ≠ '+' ∧ c ≠ '-' ∧ c ≠ 'x' := by
  refine ⟨?_, ?_, ?_, ?_, ?_⟩ <;> intro he <;> subst he <;> revert h <;> decide

lemma table_keys_not_hex :
    opcodeTable.all (fun p => p.1.any (fun c => !(isHexDigitLower c))) = true := by
  decide

lemma table_keys_dollar :
    opcodeTable.all (fun p => decide (p.1.head? = some '$' → p.1 = ['$'])) = true := by
  decide

lemma tableFind_none_of_hex (t : List Char) (h : t.all isHexDigitLower = true) :
    tableFind t opcodeTable = none := by
  apply tableFind_eq_none
  intro p hp he
  obtain ⟨k, v⟩ := p
  subst he
  have h2 := table_keys_not_hex
  rw [List.all_eq_true] at h2
  have h3 := h2 (t, v) hp
  rw [List.any_eq_true] at h3
  obtain ⟨c, hc, hcb⟩ := h3
  rw [List.all_eq_true] at h
  have := h c hc
  simp [this] at hcb

lemma tableFind_none_dollar (k : Char) (rest : List Char) :
    tableFind ('$' :: k :: rest) opcodeTable = none := by
  apply tableFind_eq_none
  intro p hp he
  obtain ⟨k1, v1⟩ := p
  simp only at he
  subst he
  have h2 := table_keys_dollar
  rw [List.all_eq_true] at h2
  have h3 := h2 (('$' : Char) :: k :: rest, v1) hp
  rw [decide_eq_true_iff] at h3
  have h4 := h3 rfl
  simp at h4

lemma trim0x_of_hex (t : List Char) (h : t.all isHexDigitLower = true) :
    trim0x t = t := by
  cases t with
  | nil => rfl
  | cons c1 rest =>
    cases rest with
    | nil => rfl
    | cons c2 rest2 =>
      have h2 : isHexDigitLower c2 = true := by
        rw [List.all_eq_true] at h
        exact h c2 (by simp)
      have hx : c2 ≠ 'x' := (hexLower_ne c2 h2).2.2.2.2
      simp [trim0x, hx]

lemma rustParse_of_hex (t : List Char) (v : Nat) (hne : t ≠ [])
    (h : t.all isHexDigitLower = true) (hp : parseDigits 16 t = some v)
    (hv : v ≤ U64MAX) : rustParseUnsigned U64MAX 16 t = some v := by
  obtain ⟨c, cs, rfl⟩ : ∃ c cs, t = c :: cs := by
    cases t with
    | nil => exact absurd rfl hne
    | cons c cs => exact ⟨c, cs, rfl⟩
  have hc : isHexDigitLower c = true := by
    rw [List.all_eq_true] at h
    exact h c (by simp)
  have h1 : (c :: cs).head? ≠ some '+' := by
    simp
    exact (hexLower_ne c hc).2.2.1
  have h2 : (c :: cs).head? ≠ some '-' := by
    simp
    exact (hexLower_ne c hc).2.2.2.1
  unfold rustParseUnsigned
  rw [if_neg h1, if_neg h2, hp]
  simp [hv]

lemma kindToken_invalid (k : Char)
    (h : k ∉ (['$', 'z', 'b', 'c', 'p', 'r', 'o', 's'] : List Char)) (bit : Nat) :
    kindToken bit k = Token.EInvalid := by
  simp only [List.mem_cons, List.not_mem_nil, or_false, not_or] at h
  obtain ⟨h1, h2, h3, h4, h5, h6, h7, h8⟩ := h
  simp [kindToken, h1, h2, h3, h4, h5, h6, h7, h8]

lemma internalVar_short (k : Char) (hk : k.toNat ≤ 127) :
    internalVar ['$', k] = some [kindToken 0 k] := by
  unfold internalVar
  rw [if_pos]
  · simp
  · rw [utf8Len_cons, utf8Len_cons, charUtf8Size_ascii k hk]
    have hd : charUtf8Size '$' = 1 := by decide
    rw [hd]
    simp [utf8Len]

lemma internalVar_long (k : Char) (rest : List Char) (hk : k.toNat ≤ 127)
    (hr : rest ≠ []) :
    internalVar ('$' :: k :: rest) =
      some [kindToken ((rustParseUnsigned 255 10 rest).getD 0) k] := by
  have hsk : charUtf8Size k = 1 := charUtf8Size_ascii k hk
  have hsd : charUtf8Size '$' = 1 := by decide
  unfold internalVar
  rw [if_neg]
  · have hdrop : dropBytes 2 ('$' :: k :: rest) = some rest := by
      unfold dropBytes
      rw [if_neg (by omega), if_pos (by omega : charUtf8Size '$' ≤ 2), hsd]
      unfold dropBytes
      cases rest with
      | nil => exact absurd rfl hr
      | cons r rs =>
        rw [if_neg (by omega), if_pos (by omega : charUtf8Size k ≤ 2 - 1), hsk]
        norm_num
        unfold dropBytes
        simp
    rw [hdrop]
    simp
  · rw [utf8Len_cons, utf8Len_cons, hsd, hsk]
    have := utf8Len_pos rest hr
    omega

/-- A fixed compound expansion: more than one token and no identifier token
anywhere (the shape the opcode resolver emits for recognized compound
operators). -/
def nonIdentifierExpansion (ts : List Token) : Bool :=
  decide (1 < ts.length) &&
    ts.all (fun tk =>
      match tk with
      | Token.EIdentifier _ => false
      | _ => true)

/-- Every memory-access token of the sequence carries the given width. -/
def widthBitsOk (bits : Nat) (ts : List Token) : Bool :=
  ts.all (fun tk =>
    match tk with
    | Token.EPeek w => decide (w = bits)
    | Token.EPoke w => decide (w = bits)
    | _ => true)

/-- The twelve compound operator families named by the spec. -/
def famAll : List String :=
  ["+", "-", "*", "/", "%", "&", "|", "^", "<<", ">>", "++", "--"]

/-- The width markers named by the spec, with the bit count each maps to. -/
def widthMarks : List (String × Nat) :=
  [("", 64), ("[]", 64), ("[1]", 8), ("[2]", 16), ("[4]", 32), ("[8]", 64)]

/-- Claim C1 (code bug): the spec says tokenization is total, but the byte
slice `t[2..]` of the internal-variable branch panics when the lexeme starts
with the marker and byte offset 2 falls inside a multi-byte character:
evaluating the embedded tokenizer on the two-character input `$é` yields the
panic value. -/
theorem tokenize_panics_on_dollar_multibyte : tokenize ['$', 'é'] = none := by decide

/-- Claim C2, counterexample: the shift families with a bracket width are
not in the lexicon, so `<<=[]` is emitted as an identifier token carrying
its own text — the claim says every family × width is recognized and never
an identifier. -/
theorem c2_counterexample :
    tokenize "<<=[]".data = some [Token.EIdentifier "<<=[]".data] ∧
    tokenize ">>=[8]".data = some [Token.EIdentifier ">>=[8]".data] :=
  ⟨by decide, by decide⟩

/-- Claim C2, amended: every operator family with the bare `=` width, and
every family except `<<` and `>>` with a bracket width, is recognized and
expanded to a fixed compound (never-identifier) sequence whose memory-access
tokens carry the mapped bit count (none→64, []→64, 1→8, 2→16, 4→32, 8→64);
the ten `<<`/`>>` bracket-width forms instead fall through to the identifier
fallback. -/
theorem c2_amended :
    (famAll.all fun f => widthMarks.all fun w =>
      let lex := (f ++ "=" ++ w.1).data
      if (f = "<<" ∨ f = ">>") ∧ w.1 ≠ "" then
        decide (tokenizeLexeme lex = some [Token.EIdentifier lex])
      else
        match tokenizeLexeme lex with
        | some ts => nonIdentifierExpansion ts && widthBitsOk w.2 ts
        | none => false) = true := by
  decide

/-- Claim C3: the four end-to-end scenarios of the spec, on the embedded
tokenizer. -/
theorem c3_scenarios :
    tokenize "+=".data =
      some [Token.PCopy 2, Token.EAdd, Token.PPop 1, Token.EPop, Token.EEq] ∧
    tokenize "3,4,+".data =
      some [Token.EConstant 3, Token.EConstant 4, Token.EAdd] ∧
    tokenize "eax,+=".data =
      some [Token.EIdentifier "eax".data, Token.PCopy 2, Token.EAdd, Token.PPop 1,
        Token.EPop, Token.EEq] ∧
    tokenize "$z3".data = some [Token.IZero 3] :=
  ⟨by decide, by decide, by decide, by decide⟩

/-- Claim C4, counterexample: the expansion of `!=` does not end with the
compare-equal opcode `ECmp` (the token of `==`). -/
theorem c4_counterexample :
    tokenize "!=".data ≠ some [Token.PCopy 1, Token.ENeg, Token.ECmp] := by decide

/-- Claim C4, amended: `!=` expands to copy-top-1, negate, and then the
assignment/equality opcode `EEq` (the token of `=`), not the comparison
opcode `ECmp`. -/
theorem c4_amended :
    tokenize "!=".data = some [Token.PCopy 1, Token.ENeg, Token.EEq] := by decide

/-- Whether a token is one of the arithmetic/bitwise operation tokens (or an
injected constant) that may stand between the peek and the pop-duplicates of
a compound memory-access expansion. -/
def isOpTok : Token → Bool
  | Token.EAdd | Token.ESub | Token.EMul | Token.EDiv | Token.EMod
  | Token.EAnd | Token.EOr | Token.EXor | Token.ELsl | Token.ELsr
  | Token.ENeg | Token.EConstant _ => true
  | _ => false

/-- Tail of the prescribed memory-access step order after the leading
copy/peek/first-operation tokens: further operation tokens, then exactly one
pop-duplicates directive, an optional stack-pop, and a final poke of the
given width. -/
def memOpTail (bits : Nat) : List Token → Bool
  | Token.PPop _ :: rest =>
    (match rest with
     | [Token.EPop, Token.EPoke b] => decide (b = bits)
     | [Token.EPoke b] => decide (b = bits)
     | _ => false)
  | tk :: rest => isOpTok tk && memOpTail bits rest
  | [] => false

/-- The prescribed step order of claim C5 for a compound memory-access
expansion: a copy-top directive first, then a peek of the matching width,
then the operation, then pop-duplicates (and stack-pop where required),
ending with a poke of the matching width. -/
def memOpShape (bits : Nat) (ts : List Token) : Bool :=
  match ts with
  | Token.PCopy _ :: Token.EPeek b :: tk :: rest =>
    decide (b = bits) && isOpTok tk && memOpTail bits rest
  | _ => false

/-- The bracket width markers of the compound memory-access lexemes. -/
def bracketMarks : List (String × Nat) :=
  [("[]", 64), ("[1]", 8), ("[2]", 16), ("[4]", 32), ("[8]", 64)]

/-- Claim C5, counterexample: the `--=[]` expansion does not follow the
prescribed step order — it begins with the injected constant 1 and a
pop-duplicates directive, not with a copy-top directive. -/
theorem c5_counterexample :
    tokenize "--=[]".data = some [Token.EConstant 1, Token.PPop 1, Token.PCopy 1,
      Token.EPeek 64, Token.ESub, Token.PPop 1, Token.EPoke 64] ∧
    memOpShape 64 [Token.EConstant 1, Token.PPop 1, Token.PCopy 1, Token.EPeek 64,
      Token.ESub, Token.PPop 1, Token.EPoke 64] = false :=
  ⟨by decide, by decide⟩

/-- Claim C5, amended: every compound memory-access lexeme of the lexicon
except the `--=` family follows the prescribed step order (copy-top, peek of
matching width, operation, pop-duplicates and stack-pop where required,
final poke of matching width); the five `--=` forms instead emit the
constant 1 and a pop-duplicates directive first and only then copy-top,
peek, subtract, pop-duplicates, poke. -/
theorem c5_amended :
    ((["|", "^", "&", "+", "-", "%", "/", "*", "++"] : List String).all fun f =>
      bracketMarks.all fun w =>
        match tokenizeLexeme ((f ++ "=" ++ w.1).data) with
        | some ts => memOpShape w.2 ts
        | none => false) = true ∧
    (bracketMarks.all fun w =>
      decide (tokenizeLexeme (("--=" ++ w.1).data) =
        some [Token.EConstant 1, Token.PPop 1, Token.PCopy 1, Token.EPeek w.2,
          Token.ESub, Token.PPop 1, Token.EPoke w.2])) = true :=
  ⟨by decide, by decide⟩

/-- Claim C7: the width mapping of the stand-alone peek and poke lexemes. -/
theorem c7_width_mapping :
    tokenize "[1]".data = some [Token.EPeek 8] ∧
    tokenize "[2]".data = some [Token.EPeek 16] ∧
    tokenize "[4]".data = some [Token.EPeek 32] ∧
    tokenize "[8]".data = some [Token.EPeek 64] ∧
    tokenize "[]".data = some [Token.EPeek 64] ∧
    tokenize "[*]".data = some [Token.EPeek 64] ∧
    tokenize "=[]".data = some [Token.EPoke 64] ∧
    tokenize "=[8]".data = some [Token.EPoke 64] ∧
    tokenize "=[*]".data = some [Token.EPoke 64] :=
  ⟨by decide, by decide, by decide, by decide, by decide, by decide, by decide,
    by decide, by decide⟩

/-- Claim C6, counterexample: the 17-hex-digit lexeme `10000000000000000`
(base-16 value 2^64) overflows the unsigned 64-bit hex parse, so the
classifier falls through to the base-10 parse and interprets it as the
decimal constant 10^16 — not as a base-16 constant, which the claim asserts
for every lexeme composed solely of hex digits. -/
theorem c6_counterexample :
    tokenize "10000000000000000".data = some [Token.EConstant 10000000000000000] ∧
    tokenize "10000000000000000".data ≠ some [Token.EConstant 18446744073709551616] :=
  ⟨by decide, by decide⟩

/-- Claim C6, amended: base-16 parsing is attempted before base-10 even
without a `0x` prefix: every nonempty lexeme composed solely of the hex
digits `0`-`9`,`a`-`f` whose base-16 value fits in an unsigned 64-bit
integer is interpreted as that base-16 constant; in particular `10`
tokenizes to the constant 16, not 10. -/
theorem c6_hex_precedence :
    (∀ (t : List Char) (v : Nat), t ≠ [] → t.all isHexDigitLower = true →
      parseDigits 16 t = some v → v < 2 ^ 64 →
      tokenize t = some [Token.EConstant v]) ∧
    tokenize "10".data = some [Token.EConstant 16] := by
  constructor
  · intro t v hne hhex hp hv
    have hv2 : v ≤ U64MAX := by
      have h64 : (2 : Nat) ^ 64 = U64MAX + 1 := by norm_num [U64MAX]
      omega
    have hallhex : ∀ c ∈ t, isHexDigitLower c = true := by
      rw [List.all_eq_true] at hhex
      exact hhex
    have hnc : ∀ c ∈ t, c ≠ ',' := fun c hc => (hexLower_ne c (hallhex c hc)).1
    rw [tokenize_single t hnc]
    unfold tokenizeLexeme
    rw [tableFind_none_of_hex t hhex]
    have hd : t.head? ≠ some esilInternalMarker := by
      cases t with
      | nil => simp
      | cons c cs =>
        simp only [List.head?_cons, ne_eq, Option.some.injEq, esilInternalMarker]
        exact (hexLower_ne c (hallhex c (by simp))).2.1
    rw [if_neg hd]
    unfold classifier
    rw [trim0x_of_hex t hhex, rustParse_of_hex t v hne hhex hp hv2]
  · decide

/-- Witness for the amended claim C6 at the concrete lexeme `ff`. -/
theorem c6_hex_precedence_witness :
    ("ff".data ≠ ([] : List Char)) ∧ "ff".data.all isHexDigitLower = true ∧
    parseDigits 16 "ff".data = some 255 ∧ 255 < 2 ^ 64 ∧
    tokenize "ff".data = some [Token.EConstant 255] :=
  ⟨by decide, by decide, by decide, by norm_num,
    c6_hex_precedence.1 "ff".data 255 (by decide) (by decide) (by decide) (by norm_num)⟩

/-- Claim C8, counterexample: the marker followed by the unrecognized
multi-byte kind character `ü` does not yield an Invalid token — the byte
slice `t[2..]` panics first. -/
theorem c8_counterexample :
    tokenize ['$', 'ü'] = none ∧ tokenize ['$', 'ü'] ≠ some [Token.EInvalid] :=
  ⟨by decide, by decide⟩

/-- Claim C8, amended: for a comma-free internal-variable lexeme whose
second character `k` is a single byte (ASCII): when the digit substring is
absent or fails to parse as an unsigned 8-bit integer the lexeme tokenizes
to its kind token with bit index 0 and no error; and an unrecognized
(single-byte) kind character yields exactly one Invalid token whatever the
digits are. A multi-byte kind character instead panics, as the
counterexample shows. -/
theorem c8_bit_default_and_invalid :
    (∀ (k : Char) (rest : List Char), k.toNat ≤ 127 → k ≠ ',' →
      (∀ c ∈ rest, c ≠ ',') →
      (rest = [] ∨ rustParseUnsigned 255 10 rest = none) →
      tokenize ('$' :: k :: rest) = some [kindToken 0 k]) ∧
    (∀ (k : Char) (rest : List Char), k.toNat ≤ 127 → k ≠ ',' →
      (∀ c ∈ rest, c ≠ ',') →
      k ∉ (['$', 'z', 'b', 'c', 'p', 'r', 'o', 's'] : List Char) →
      tokenize ('$' :: k :: rest) = some [Token.EInvalid]) := by
  have main : ∀ (k : Char) (rest : List Char), k.toNat ≤ 127 → k ≠ ',' →
      (∀ c ∈ rest, c ≠ ',') →
      tokenize ('$' :: k :: rest) =
        if rest = [] then some [kindToken 0 k]
        else some [kindToken ((rustParseUnsigned 255 10 rest).getD 0) k] := by
    intro k rest hk hkc hrc
    have hnc : ∀ c ∈ ('$' :: k :: rest), c ≠ ',' := by
      intro c hc
      simp only [List.mem_cons] at hc
      rcases hc with rfl | rfl | hc
      · decide
      · exact hkc
      · exact hrc c hc
    rw [tokenize_single _ hnc]
    unfold tokenizeLexeme
    rw [tableFind_none_dollar k rest]
    rw [if_pos (by simp [esilInternalMarker])]
    cases rest with
    | nil => rw [internalVar_short k hk]; simp
    | cons r rs =>
      rw [internalVar_long k (r :: rs) hk (by simp)]
      simp
  constructor
  · intro k rest hk hkc hrc hparse
    rw [main k rest hk hkc hrc]
    cases rest with
    | nil => simp
    | cons r rs =>
      have hnone : rustParseUnsigned 255 10 (r :: rs) = none := by
        rcases hparse with h | h
        · exact absurd h (by simp)
        · exact h
      simp [hnone]
  · intro k rest hk hkc hrc hkn
    rw [main k rest hk hkc hrc]
    split <;> rw [kindToken_invalid k hkn]

/-- Witness for the amended claim C8: the oversized digit string `999`
fails the u8 parse and defaults the zero-flag bit index to 0, and the
unrecognized ASCII kind `x` yields one Invalid token. -/
theorem c8_bit_default_and_invalid_witness :
    rustParseUnsigned 255 10 "999".data = none ∧
    tokenize ('$' :: 'z' :: "999".data) = some [kindToken 0 'z'] ∧
    tokenize ('$' :: 'x' :: []) = some [Token.EInvalid] :=
  ⟨by decide,
    c8_bit_default_and_invalid.1 'z' "999".data (by decide) (by decide) (by decide)
      (Or.inr (by decide)),
    c8_bit_default_and_invalid.2 'x' [] (by decide) (by decide) (by simp) (by decide)⟩

/-- Claim C9: a trailing comma appends one empty lexeme, which is not
dropped but becomes an identifier token carrying the empty string, after
the tokens of the rest of the input. -/
theorem c9_trailing_comma (s : List Char) (ts : List Token)
    (h : tokenize s = some ts) :
    tokenize (s ++ [',']) = some (ts ++ [Token.EIdentifier []]) := by
  unfold tokenize at h ⊢
  rw [splitComma_append s [], tokenizeLexemes_append, h]
  have h2 : tokenizeLexemes (splitComma []) = some [Token.EIdentifier []] := by decide
  rw [h2]
  rfl

/-- Witness for claim C9 at the input `+,`. -/
theorem c9_trailing_comma_witness :
    tokenize "+".data = some [Token.EAdd] ∧
    tokenize ("+".data ++ [',']) = some ([Token.EAdd] ++ [Token.EIdentifier []]) :=
  ⟨by decide, c9_trailing_comma "+".data [Token.EAdd] (by decide)⟩

/-- Claim C10: tokenization is a homomorphism over comma-concatenation —
whenever both halves tokenize, the comma-joined input tokenizes to the
concatenation of their token sequences. -/
theorem c10_comma_homomorphism (a b : List Char) (ta tb : List Token)
    (ha : tokenize a = some ta) (hb : tokenize b = some tb) :
    tokenize (a ++ ',' :: b) = some (ta ++ tb) := by
  unfold tokenize at ha hb ⊢
  rw [splitComma_append a b, tokenizeLexemes_append, ha, hb]
  rfl

/-- Witness for claim C10 at the inputs `3` and `4`. -/
theorem c10_comma_homomorphism_witness :
    tokenize "3".data = some [Token.EConstant 3] ∧
    tokenize "4".data = some [Token.EConstant 4] ∧
    tokenize ("3".data ++ ',' :: "4".data) =
      some ([Token.EConstant 3] ++ [Token.EConstant 4]) :=
  ⟨by decide, by decide,
    c10_comma_homomorphism "3".data "4".data [Token.EConstant 3] [Token.EConstant 4]
      (by decide) (by decide)⟩
